import Mathlib

/-!
Verification of the eateateat pipeline core

Shallow embedding of the pipeline orchestration and recommendation-scoring
code (`src/scraper/*.py`, `src/frontend/app.py`) together with proofs of the
specified properties.  Each definition is a direct translation of the Python
function or SQL statement named in its doc comment; SQL three-valued logic
is modelled with `Option`, SQL `NULL` as `none`, timestamps as `Nat`.
-/

namespace EatEat

/-- The `pipeline_status` enum on a restaurant row
(values used throughout `db.py` / `pipeline.py`). -/
inductive Status where
  | new
  | disqualified
  | enriched
  | complete
  | inactive
deriving DecidableEq, Repr

/-- Status priority, from `db.set_pipeline_status` (db.py:137 and the SQL
`CASE pipeline_status ... END`): `new`(0) < `disqualified`(1) < `enriched`(2)
< `complete`(3) < `inactive`(4). -/
def priority : Status → Nat
  | .new => 0
  | .disqualified => 1
  | .enriched => 2
  | .complete => 3
  | .inactive => 4

/-- The columns of a `restaurants` row that the status state machine reads
and writes (`pipeline_status`, `last_verified_at`). -/
structure StatusRecord where
  status : Status
  last_verified_at : Option Nat
deriving DecidableEq, Repr

/-- Embedding of `db.set_pipeline_status` (db.py:134-161): non-forced update.  The SQL
`UPDATE ... WHERE place_id = %s AND (CASE pipeline_status ... END <= %s)`
applies the write only when the current priority is `<=` the new one, and the
`CASE WHEN %s IN ('complete','inactive') THEN NOW() ELSE last_verified_at END`
stamps `last_verified_at` exactly on an applied write to those two states. -/
def set_pipeline_status (now : Nat) (s : Status) (r : StatusRecord) : StatusRecord :=
  if priority r.status ≤ priority s then
    { status := s
      last_verified_at :=
        if s = .complete ∨ s = .inactive then some now else r.last_verified_at }
  else r

/-- Embedding of `db.set_pipeline_status_force` (db.py:164-176): unconditional write; the
SQL sets `last_verified_at = NOW()` on every forced update, whatever the new
status is. -/
def set_pipeline_status_force (now : Nat) (s : Status) (_r : StatusRecord) : StatusRecord :=
  { status := s, last_verified_at := some now }

/-- A sequence of non-forced updates, oldest first: each list entry is the
`(new_status, now)` pair of one `set_pipeline_status` call. -/
def apply_updates (r : StatusRecord) (us : List (Status × Nat)) : StatusRecord :=
  us.foldl (fun acc u => set_pipeline_status u.2 u.1 acc) r

/-! ## Key rotator (`keys.py`) -/

/-- Embedding of `keys.KeyRotator` state: the key pool, the index of the active key and the
per-cycle exhaustion counter (keys.py:31-36). -/
structure KeyRotator where
  keys : List String
  index : Nat
  exhausted_count : Nat
deriving DecidableEq, Repr

/-- Embedding of `KeyRotator.current` (keys.py:65-67). -/
def KeyRotator.current (r : KeyRotator) : Option String :=
  r.keys.get? r.index

/-- Embedding of `KeyRotator.rotate` (keys.py:69-86): increments the exhaustion counter,
and either signals exhaustion (counter has reached the pool size) without
advancing, or advances round-robin and reports a fresh key. -/
def KeyRotator.rotate (r : KeyRotator) : KeyRotator × Bool :=
  let next_index := (r.index + 1) % r.keys.length
  let ex := r.exhausted_count + 1
  if r.keys.length ≤ ex then
    ({ r with exhausted_count := ex }, false)
  else
    ({ r with index := next_index, exhausted_count := ex }, true)

/-- Embedding of `KeyRotator.all_exhausted` (keys.py:88-90). -/
def KeyRotator.all_exhausted (r : KeyRotator) : Bool :=
  r.keys.length ≤ r.exhausted_count

/-- Embedding of `KeyRotator.reset` (keys.py:92-95). -/
def KeyRotator.reset (r : KeyRotator) : KeyRotator :=
  { r with exhausted_count := 0 }

/-- The rotator state after `n` consecutive `rotate()` calls. -/
def KeyRotator.iterate (r : KeyRotator) : Nat → KeyRotator
  | 0 => r
  | n + 1 => (r.iterate n).rotate.1

lemma set_pipeline_status_status_of_not_le {now : Nat} {s : Status} {r : StatusRecord}
    (h : ¬ priority r.status ≤ priority s) : set_pipeline_status now s r = r := by
  simp [set_pipeline_status, h]

lemma priority_le_set_pipeline_status (now : Nat) (s : Status) (r : StatusRecord) :
    priority r.status ≤ priority (set_pipeline_status now s r).status := by
  by_cases h : priority r.status ≤ priority s
  · simp [set_pipeline_status, h]
  · simp [set_pipeline_status, h]

lemma priority_le_apply_updates (us : List (Status × Nat)) (r : StatusRecord) :
    priority r.status ≤ priority (apply_updates r us).status := by
  induction us generalizing r with
  | nil => simp [apply_updates]
  | cons u us ih =>
    calc priority r.status ≤ priority (set_pipeline_status u.2 u.1 r).status :=
          priority_le_set_pipeline_status u.2 u.1 r
      _ ≤ priority (apply_updates (set_pipeline_status u.2 u.1 r) us).status :=
          ih (set_pipeline_status u.2 u.1 r)
      _ = priority (apply_updates r (u :: us)).status := by simp [apply_updates]

/-- Claim **C1.** A non-forced `set_pipeline_status` call changes the record only if
the new status has priority at least that of the current one (any lower-priority
request leaves the row untouched); consequently along any sequence of non-forced
updates the status priority is non-decreasing, and re-asserting the current
status is a permitted no-op (the write goes through and keeps the status). -/
theorem set_pipeline_status_monotone :
    (∀ (now : Nat) (s : Status) (r : StatusRecord),
        ¬ priority r.status ≤ priority s → set_pipeline_status now s r = r)
    ∧ (∀ (now : Nat) (s : Status) (r : StatusRecord),
        priority r.status ≤ priority (set_pipeline_status now s r).status)
    ∧ (∀ (us : List (Status × Nat)) (r : StatusRecord),
        priority r.status ≤ priority (apply_updates r us).status)
    ∧ (∀ (now : Nat) (r : StatusRecord),
        (set_pipeline_status now r.status r).status = r.status) := by
  refine ⟨fun now s r h => set_pipeline_status_status_of_not_le h,
          priority_le_set_pipeline_status,
          priority_le_apply_updates,
          fun now r => ?_⟩
  simp [set_pipeline_status]

/-- Witness for C1 at concrete inputs: a downgrade request `complete → new` is
a no-op on the whole record, a three-update sequence never decreases the
priority, and re-asserting `enriched` keeps the status. -/
theorem set_pipeline_status_monotone_witness :
    (¬ priority (StatusRecord.mk .complete none).status ≤ priority .new)
    ∧ set_pipeline_status 7 .new ⟨.complete, none⟩ = ⟨.complete, none⟩
    ∧ priority (StatusRecord.mk .new none).status ≤
        priority (apply_updates ⟨.new, none⟩
          [(.disqualified, 1), (.enriched, 2), (.complete, 3)]).status
    ∧ (set_pipeline_status 9 (StatusRecord.mk .enriched none).status
        ⟨.enriched, none⟩).status = (StatusRecord.mk .enriched none).status := by
  refine ⟨by decide,
          set_pipeline_status_monotone.1 7 .new ⟨.complete, none⟩ (by decide),
          set_pipeline_status_monotone.2.2.1
            [(.disqualified, 1), (.enriched, 2), (.complete, 3)] ⟨.new, none⟩,
          set_pipeline_status_monotone.2.2.2 9 ⟨.enriched, none⟩⟩

/-- Claim **C8 counterexample.** The claim says a forced update to a status other
than `complete`/`inactive` leaves `last_verified_at` unchanged; but
`set_pipeline_status_force` (db.py:164-176) sets `last_verified_at = NOW()`
unconditionally: forcing a `complete` record to `disqualified` at time 5
changes `last_verified_at` from `none` to `some 5`. -/
theorem force_disqualified_stamps_last_verified :
    (set_pipeline_status_force 5 .disqualified ⟨.complete, none⟩).last_verified_at = some 5
    ∧ some 5 ≠ (none : Option Nat)
    ∧ Status.disqualified ≠ .complete ∧ Status.disqualified ≠ .inactive := by
  refine ⟨rfl, by decide, by decide, by decide⟩

/-- Claim **C8 (amended).** A forced update always stamps `last_verified_at = now`,
whatever the new status is; on the non-forced path, an update to a status other
than `complete`/`inactive` leaves `last_verified_at` unchanged, and an applied
update to `complete` or `inactive` stamps it. -/
theorem last_verified_at_stamping :
    (∀ (now : Nat) (s : Status) (r : StatusRecord),
        (set_pipeline_status_force now s r).last_verified_at = some now)
    ∧ (∀ (now : Nat) (s : Status) (r : StatusRecord),
        s ≠ .complete → s ≠ .inactive →
        (set_pipeline_status now s r).last_verified_at = r.last_verified_at)
    ∧ (∀ (now : Nat) (s : Status) (r : StatusRecord),
        priority r.status ≤ priority s → (s = .complete ∨ s = .inactive) →
        (set_pipeline_status now s r).last_verified_at = some now) := by
  refine ⟨fun now s r => rfl, fun now s r hc hi => ?_, fun now s r hle hs => ?_⟩
  · by_cases h : priority r.status ≤ priority s
    · simp [set_pipeline_status, h, hc, hi]
    · simp [set_pipeline_status, h]
  · simp [set_pipeline_status, hle, hs]

lemma KeyRotator.iterate_fresh (r : KeyRotator) (h0 : r.exhausted_count = 0)
    (hidx : r.index < r.keys.length) :
    ∀ j, j < r.keys.length →
      r.iterate j = ⟨r.keys, (r.index + j) % r.keys.length, j⟩ := by
  intro j
  induction j with
  | zero =>
    intro _
    cases r with
    | mk ks i e =>
      simp only at h0 hidx
      simp [KeyRotator.iterate, h0, Nat.mod_eq_of_lt hidx]
  | succ j ih =>
    intro hj
    have hj' : j < r.keys.length := Nat.lt_of_succ_lt hj
    have hstep := ih hj'
    show (r.iterate j).rotate.1 = _
    rw [hstep]
    have hnotle : ¬ r.keys.length ≤ j + 1 := Nat.not_le_of_lt hj
    simp only [KeyRotator.rotate, hnotle, if_false]
    refine congrArg (fun i => KeyRotator.mk r.keys i (j + 1)) ?_
    simp [Nat.mod_add_mod, Nat.add_assoc]

/-- Claim **C7.** For a `KeyRotator` over `K ≥ 1` credentials in a fresh cycle
(`exhausted_count = 0`, active index in range): each of the first `K-1`
consecutive `rotate()` calls returns `true` and advances the active index
round-robin; the `K`-th call returns `false` without moving the index; and
`reset()` afterwards restores a fresh cycle over the same pool (so the same
behaviour repeats). -/
theorem key_rotator_cycle (r : KeyRotator) (hK : r.keys ≠ [])
    (h0 : r.exhausted_count = 0) (hidx : r.index < r.keys.length) :
    (∀ j, j + 1 < r.keys.length →
        (r.iterate j).rotate.2 = true
        ∧ (r.iterate (j + 1)).index = (r.index + (j + 1)) % r.keys.length)
    ∧ (r.iterate (r.keys.length - 1)).rotate.2 = false
    ∧ (r.iterate r.keys.length).index = (r.iterate (r.keys.length - 1)).index
    ∧ ((r.iterate r.keys.length).reset).keys = r.keys
    ∧ ((r.iterate r.keys.length).reset).exhausted_count = 0
    ∧ ((r.iterate r.keys.length).reset).index < r.keys.length := by
  have hKpos : 0 < r.keys.length := List.length_pos.2 hK
  have hlast : r.keys.length - 1 < r.keys.length := Nat.sub_lt hKpos Nat.one_pos
  have hfin := r.iterate_fresh h0 hidx (r.keys.length - 1) hlast
  have hsub : r.keys.length - 1 + 1 = r.keys.length := Nat.succ_pred_eq_of_pos hKpos
  have hKth : r.iterate r.keys.length = (r.iterate (r.keys.length - 1)).rotate.1 := by
    conv_lhs => rw [← hsub]
    rfl
  have hexh : r.keys.length ≤ r.keys.length - 1 + 1 := le_of_eq hsub.symm
  constructor
  · intro j hj
    have hj' : j < r.keys.length := Nat.lt_of_succ_lt hj
    have h1 := r.iterate_fresh h0 hidx j hj'
    have h2 := r.iterate_fresh h0 hidx (j + 1) hj
    constructor
    · rw [h1]
      have hnotle : ¬ r.keys.length ≤ j + 1 := Nat.not_le_of_lt hj
      simp [KeyRotator.rotate, hnotle]
    · rw [h2]
  · refine ⟨?_, ?_, ?_, ?_, ?_⟩
    · rw [hfin]
      simp [KeyRotator.rotate, hsub, hexh]
    · rw [hKth, hfin]
      simp [KeyRotator.rotate, hsub, hexh]
    · rw [hKth, hfin]
      simp [KeyRotator.rotate, hsub, KeyRotator.reset]
    · rw [hKth, hfin]
      simp [KeyRotator.rotate, hsub, KeyRotator.reset]
    · rw [hKth, hfin]
      simp [KeyRotator.rotate, hsub, KeyRotator.reset]
      exact Nat.mod_lt _ hKpos

/-- Witness for C7 with a concrete three-key pool: the first two calls rotate
and return `true`, the third returns `false` without advancing, and `reset`
restores a fresh cycle. -/
theorem key_rotator_cycle_witness :
    ((⟨["a", "b", "c"], 0, 0⟩ : KeyRotator) ≠ ⟨["a", "b", "c"], 0, 0⟩ ∨
      ((KeyRotator.mk ["a", "b", "c"] 0 0).iterate 1).rotate.2 = true)
    ∧ ((KeyRotator.mk ["a", "b", "c"] 0 0).iterate 2).rotate.2 = false
    ∧ ((KeyRotator.mk ["a", "b", "c"] 0 0).iterate 3).reset.exhausted_count = 0 := by
  have h := key_rotator_cycle ⟨["a", "b", "c"], 0, 0⟩ (by decide) rfl (by decide)
  exact ⟨Or.inr (h.1 1 (by decide)).1, h.2.1, h.2.2.2.2.1⟩

/-- Witness for the amended C8 at concrete inputs: forcing to `new` stamps the
timestamp, a non-forced advance to `enriched` leaves it alone, and a non-forced
advance to `complete` stamps it. -/
theorem last_verified_at_stamping_witness :
    (set_pipeline_status_force 3 .new ⟨.complete, some 1⟩).last_verified_at = some 3
    ∧ (set_pipeline_status 4 .enriched ⟨.new, some 1⟩).last_verified_at = some 1
    ∧ (set_pipeline_status 6 .complete ⟨.enriched, some 1⟩).last_verified_at = some 6 :=
  ⟨last_verified_at_stamping.1 3 .new ⟨.complete, some 1⟩,
   last_verified_at_stamping.2.1 4 .enriched ⟨.new, some 1⟩ (by decide) (by decide),
   last_verified_at_stamping.2.2 6 .complete ⟨.enriched, some 1⟩ (by decide) (Or.inl rfl)⟩

/-! ## Data model shared by the pipeline stages

SQL `NULL` is `none`; comparisons involving `NULL` yield `none` (unknown) and
a SQL `WHERE` keeps a row only when its condition is `some true`. -/

/-- SQL `x < c` for a nullable numeric column. -/
def sql_lt_q (a : Option ℚ) (c : ℚ) : Option Bool :=
  a.map (fun x => decide (x < c))

/-- SQL `x >= c` for a nullable numeric column. -/
def sql_ge_q (a : Option ℚ) (c : ℚ) : Option Bool :=
  a.map (fun x => decide (c ≤ x))

/-- SQL `x < c` for a nullable integer column. -/
def sql_lt_z (a : Option ℤ) (c : ℤ) : Option Bool :=
  a.map (fun x => decide (x < c))

/-- SQL `x >= c` for a nullable integer column. -/
def sql_ge_z (a : Option ℤ) (c : ℤ) : Option Bool :=
  a.map (fun x => decide (c ≤ x))

/-- SQL three-valued `OR`. -/
def sql_or : Option Bool → Option Bool → Option Bool
  | some true, _ => some true
  | _, some true => some true
  | some false, some false => some false
  | _, _ => none

/-- SQL three-valued `AND`. -/
def sql_and : Option Bool → Option Bool → Option Bool
  | some false, _ => some false
  | _, some false => some false
  | some true, some true => some true
  | _, _ => none

/-- A SQL `WHERE` condition holds only when it evaluates to true (not unknown). -/
def sql_is_true (x : Option Bool) : Bool :=
  x == some true

/-- A `gemini_enrichments` row (enrich.py `save_enrichment`, columns of the
insert at enrich.py:190-236): the 11 nullable profile scores, the three text
fields and the model identifier. -/
structure Enrichment where
  family_score : Option ℤ
  date_score : Option ℤ
  friends_score : Option ℤ
  solo_score : Option ℤ
  relaxed_score : Option ℤ
  party_score : Option ℤ
  special_score : Option ℤ
  foodie_score : Option ℤ
  lingering_score : Option ℤ
  unique_score : Option ℤ
  dresscode_score : Option ℤ
  summary_de : Option String
  must_order : Option String
  vibe : Option String
deriving DecidableEq, Repr

/-- A `serpapi_details` row (detail_scrape.py `save_details`); only the four
tag arrays read back by the recommender query (frontend/app.py:195-196,
248-258) are modelled.  Each array column is nullable (`save_details` stores
`None` when the provider omitted a category). -/
structure Details where
  atmosphere : Option (List String)
  offerings : Option (List String)
  crowd : Option (List String)
  highlights : Option (List String)
deriving DecidableEq, Repr

/-- A `restaurants` row together with its one-to-one satellite rows
(`gemini_enrichments`, `serpapi_details`), which the SQL reaches by
`LEFT JOIN ... ON place_id`.  `has_cid` models `raw_data->>'cid' IS NOT NULL`,
`place_type` models `raw_data->>'type'`, and `open_slots` is the
`restaurants.open_slots` array written by embed.py. -/
structure Restaurant where
  place_id : String
  rating : Option ℚ
  rating_count : Option ℤ
  price_level : Option String
  place_type : Option String
  has_cid : Bool
  open_slots : List String
  is_active : Bool
  pipeline : StatusRecord
  enrichment : Option Enrichment
  details : Option Details
deriving DecidableEq, Repr

/-- Quality thresholds `MIN_RATING = 4.5` (pipeline.py:50, config.py:71);
written as `mkRat 9 2` so that concrete comparisons reduce in the kernel. -/
def MIN_RATING : ℚ := mkRat 9 2

/-- Quality thresholds `MIN_REVIEWS` (pipeline.py:51, config.py:72). -/
def MIN_REVIEWS : ℤ := 100

/-! ## Stage 2: qualify (`pipeline.stage_qualify`, pipeline.py:70-116) -/

/-- The effect of `stage_qualify` on one row (non-dry-run).  First the
disqualification pass: rows selected by
`pipeline_status = 'new' AND (rating < 4.5 OR rating_count < 100)` get a
non-forced `set_pipeline_status(..., 'disqualified')`.  Then the
re-qualification `UPDATE ... SET pipeline_status = 'new' WHERE
pipeline_status = 'disqualified' AND rating >= 4.5 AND rating_count >= 100`
(a direct column write: it does not touch `last_verified_at`). -/
def qualify_row (now : Nat) (r : Restaurant) : Restaurant :=
  let r1 :=
    if r.pipeline.status = .new
        ∧ sql_is_true (sql_or (sql_lt_q r.rating MIN_RATING)
            (sql_lt_z r.rating_count MIN_REVIEWS)) then
      { r with pipeline := set_pipeline_status now .disqualified r.pipeline }
    else r
  if r1.pipeline.status = .disqualified
      ∧ sql_is_true (sql_and (sql_ge_q r1.rating MIN_RATING)
          (sql_ge_z r1.rating_count MIN_REVIEWS)) then
    { r1 with pipeline := { r1.pipeline with status := .new } }
  else r1

/-- Embedding of `stage_qualify`: applies `qualify_row` to every restaurant (the two SQL
statements read their snapshots before writing; both passes are row-local). -/
def stage_qualify (now : Nat) (db : List Restaurant) : List Restaurant :=
  db.map (qualify_row now)

/-- A `new` restaurant is below threshold in the sense of the disqualify
`WHERE` clause: one of the two columns is present and below its bound. -/
def below_threshold (r : Restaurant) : Prop :=
  (∃ q, r.rating = some q ∧ q < MIN_RATING)
  ∨ (∃ k, r.rating_count = some k ∧ k < MIN_REVIEWS)

/-- Both quality columns are present and at or above their bounds. -/
def meets_threshold (r : Restaurant) : Prop :=
  (∃ q, r.rating = some q ∧ MIN_RATING ≤ q)
  ∧ (∃ k, r.rating_count = some k ∧ MIN_REVIEWS ≤ k)

lemma sql_is_true_or_lt {a : Option ℚ} {b : Option ℤ} {c : ℚ} {d : ℤ} :
    sql_is_true (sql_or (sql_lt_q a c) (sql_lt_z b d)) = true ↔
      (∃ q, a = some q ∧ q < c) ∨ (∃ k, b = some k ∧ k < d) := by
  rcases a with _ | q <;> rcases b with _ | k
  · simp [sql_lt_q, sql_lt_z, sql_or, sql_is_true]
  · by_cases h : k < d <;>
      simp [sql_lt_q, sql_lt_z, sql_or, sql_is_true, h]
  · by_cases h : q < c <;>
      simp [sql_lt_q, sql_lt_z, sql_or, sql_is_true, h]
  · by_cases h1 : q < c <;> by_cases h2 : k < d <;>
      simp [sql_lt_q, sql_lt_z, sql_or, sql_is_true, h1, h2]

lemma sql_is_true_and_ge {a : Option ℚ} {b : Option ℤ} {c : ℚ} {d : ℤ} :
    sql_is_true (sql_and (sql_ge_q a c) (sql_ge_z b d)) = true ↔
      (∃ q, a = some q ∧ c ≤ q) ∧ (∃ k, b = some k ∧ d ≤ k) := by
  rcases a with _ | q <;> rcases b with _ | k
  · simp [sql_ge_q, sql_ge_z, sql_and, sql_is_true]
  · by_cases h : d ≤ k <;>
      simp [sql_ge_q, sql_ge_z, sql_and, sql_is_true, h]
  · by_cases h : c ≤ q <;>
      simp [sql_ge_q, sql_ge_z, sql_and, sql_is_true, h]
  · by_cases h1 : c ≤ q <;> by_cases h2 : d ≤ k <;>
      simp [sql_ge_q, sql_ge_z, sql_and, sql_is_true, h1, h2]

lemma below_not_meets {r : Restaurant} (h : below_threshold r) :
    ¬ meets_threshold r := by
  rintro ⟨⟨q, hq, hq2⟩, ⟨k, hk, hk2⟩⟩
  rcases h with ⟨q', hq', hq'2⟩ | ⟨k', hk', hk'2⟩
  · rw [hq] at hq'
    exact absurd hq2 (not_le.2 (Option.some.inj hq' ▸ hq'2))
  · rw [hk] at hk'
    exact absurd hk2 (not_le.2 (Option.some.inj hk' ▸ hk'2))

/-- Claim **C10 counterexample.** The claim says a `new` restaurant with a null
rating (or null rating_count) is never disqualified by the qualify stage; but
in the SQL `rating < 4.5 OR rating_count < 100` the null comparison is merely
unknown, and the other disjunct can still be true: a `new` row with
`rating = NULL` and `rating_count = 50` is selected and disqualified. -/
theorem qualify_null_rating_counterexample :
    (qualify_row 0
      { place_id := "x", rating := none, rating_count := some 50,
        price_level := none, place_type := none, has_cid := false,
        open_slots := [], is_active := true, pipeline := ⟨.new, none⟩,
        enrichment := none, details := none }).pipeline.status = .disqualified
    ∧ (Restaurant.rating
      { place_id := "x", rating := none, rating_count := some 50,
        price_level := none, place_type := none, has_cid := false,
        open_slots := [], is_active := true, pipeline := ⟨.new, none⟩,
        enrichment := none, details := none }) = none
    ∧ Status.disqualified ≠ .new := by
  refine ⟨by decide, rfl, by decide⟩

/-- Claim **C10 (amended).** Under the SQL three-valued semantics of
`stage_qualify`: a `new` restaurant with *both* quality columns null is left
untouched; a `new` restaurant is moved to `disqualified` exactly when one of
the two columns is present and below its threshold (so a single null column
does not protect the row); and a `disqualified` restaurant is moved back to
`new` exactly when both columns are present and at or above their thresholds
(so any null column prevents re-qualification). -/
theorem qualify_row_null_semantics :
    (∀ (now : Nat) (r : Restaurant), r.pipeline.status = .new →
        r.rating = none → r.rating_count = none → qualify_row now r = r)
    ∧ (∀ (now : Nat) (r : Restaurant), r.pipeline.status = .new →
        ((qualify_row now r).pipeline.status = .disqualified ↔ below_threshold r))
    ∧ (∀ (now : Nat) (r : Restaurant), r.pipeline.status = .disqualified →
        ((qualify_row now r).pipeline.status = .new ↔ meets_threshold r)) := by
  refine ⟨fun now r hs hq hk => ?_, fun now r hs => ?_, fun now r hs => ?_⟩
  · simp [qualify_row, hs, hq, hk, sql_lt_q, sql_lt_z, sql_or, sql_is_true]
  · by_cases hb : below_threshold r
    · have hcond := sql_is_true_or_lt.2 (by
        simpa [below_threshold] using hb)
      have hnm : ¬ sql_is_true (sql_and (sql_ge_q r.rating MIN_RATING)
          (sql_ge_z r.rating_count MIN_REVIEWS)) = true := by
        intro hmt
        exact below_not_meets hb (by
          simpa [meets_threshold] using sql_is_true_and_ge.1 hmt)
      simp only [qualify_row, hs, hcond, true_and, if_true, and_true]
      simp [set_pipeline_status, hs, priority, hnm, hb]
    · have hcond : ¬ sql_is_true (sql_or (sql_lt_q r.rating MIN_RATING)
          (sql_lt_z r.rating_count MIN_REVIEWS)) = true := by
        intro hc
        exact hb (by simpa [below_threshold] using sql_is_true_or_lt.1 hc)
      simp [qualify_row, hs, hcond, hb]
  · by_cases hm : meets_threshold r
    · have hcond := sql_is_true_and_ge.2 (by
        simpa [meets_threshold] using hm)
      simp [qualify_row, hs, hcond, hm]
    · have hcond : ¬ sql_is_true (sql_and (sql_ge_q r.rating MIN_RATING)
          (sql_ge_z r.rating_count MIN_REVIEWS)) = true := by
        intro hc
        exact hm (by simpa [meets_threshold] using sql_is_true_and_ge.1 hc)
      simp [qualify_row, hs, hcond, hm]

/-- Witness for the amended C10 at concrete rows: both-null is untouched,
a null rating with 50 reviews is disqualified, and a null rating blocks
re-qualification. -/
theorem qualify_row_null_semantics_witness :
    qualify_row 1
      { place_id := "a", rating := none, rating_count := none,
        price_level := none, place_type := none, has_cid := false,
        open_slots := [], is_active := true, pipeline := ⟨.new, none⟩,
        enrichment := none, details := none } =
      { place_id := "a", rating := none, rating_count := none,
        price_level := none, place_type := none, has_cid := false,
        open_slots := [], is_active := true, pipeline := ⟨.new, none⟩,
        enrichment := none, details := none }
    ∧ (qualify_row 1
      { place_id := "b", rating := none, rating_count := some 50,
        price_level := none, place_type := none, has_cid := false,
        open_slots := [], is_active := true, pipeline := ⟨.new, none⟩,
        enrichment := none, details := none }).pipeline.status = .disqualified
    ∧ ¬ (qualify_row 1
      { place_id := "c", rating := none, rating_count := some 500,
        price_level := none, place_type := none, has_cid := false,
        open_slots := [], is_active := true, pipeline := ⟨.disqualified, none⟩,
        enrichment := none, details := none }).pipeline.status = .new := by
  refine ⟨qualify_row_null_semantics.1 1 _ rfl rfl rfl,
          (qualify_row_null_semantics.2.1 1 _ rfl).2 (Or.inr ⟨50, rfl, by norm_num [MIN_REVIEWS]⟩),
          fun hc => ?_⟩
  have := (qualify_row_null_semantics.2.2 1 _ rfl).1 hc
  rcases this with ⟨⟨q, hq, _⟩, _⟩
  exact Option.noConfusion hq

/-! ## Stage 3: enrich (`enrich.py`) and stage 5: details (`detail_scrape.py`) -/

/-- The Python `{"LIMIT %(limit)s" if limit else ""}` fragment
(enrich.py:183, detail_scrape.py:201): both `None` and `0` are falsy, so no
`LIMIT` clause is emitted for them.  (A negative limit would make PostgreSQL
raise; only non-negative limits are modelled.) -/
def apply_limit (limit : Option ℤ) (rows : List Restaurant) : List Restaurant :=
  match limit with
  | none => rows
  | some l => if l = 0 then rows else rows.take l.toNat

/-- Embedding of `ORDER BY r.rating DESC, r.rating_count DESC` (enrich.py:182,
detail_scrape.py:200); rows reaching the sort have non-null quality columns. -/
def quality_ge (a b : Restaurant) : Prop :=
  b.rating.getD 0 < a.rating.getD 0
  ∨ (a.rating.getD 0 = b.rating.getD 0 ∧ b.rating_count.getD 0 ≤ a.rating_count.getD 0)

instance : DecidableRel quality_ge := fun a b => by
  unfold quality_ge
  infer_instance

/-- Embedding of `enrich.fetch_pending` (enrich.py:165-187): restaurants with
`rating >= min_rating AND rating_count >= min_reviews`, and — unless `force` —
no `gemini_enrichments` row yet (`LEFT JOIN ... WHERE e.place_id IS NULL`);
ordered by rating then review count, optionally limited.
Note the `WHERE` has no `pipeline_status` condition. -/
def enrich_fetch_pending (min_rating : ℚ) (min_reviews : ℤ) (limit : Option ℤ)
    (force : Bool) (db : List Restaurant) : List Restaurant :=
  apply_limit limit
    ((db.filter (fun r =>
        sql_is_true (sql_ge_q r.rating min_rating)
        && sql_is_true (sql_ge_z r.rating_count min_reviews)
        && (force || r.enrichment.isNone))).insertionSort quality_ge)

/-- Embedding of `detail_scrape.fetch_pending` (detail_scrape.py:183-207): same shape, with
the extra `raw_data->>'cid' IS NOT NULL` condition and the cache gate on
`serpapi_details`.  Again no `pipeline_status` condition. -/
def details_fetch_pending (min_rating : ℚ) (min_reviews : ℤ) (limit : Option ℤ)
    (force : Bool) (db : List Restaurant) : List Restaurant :=
  apply_limit limit
    ((db.filter (fun r =>
        sql_is_true (sql_ge_q r.rating min_rating)
        && sql_is_true (sql_ge_z r.rating_count min_reviews)
        && r.has_cid
        && (force || r.details.isNone))).insertionSort quality_ge)

/-- The database state the enricher touches: the restaurant rows and the value
`count_today_enrichments` would report (db.py:301-307; `save_enrichment` sets
`enriched_at = NOW()`, so each save increments today's count). -/
structure PipelineDB where
  restaurants : List Restaurant
  today_enrichments : Nat
deriving DecidableEq, Repr

/-- One successful iteration of the enrich loop body (enrich.py:287-294):
`call_gemini` produced `data` (modelled by the oracle `ext`), then
`save_enrichment` stores the row and `set_pipeline_status ... 'enriched'`
advances the status non-forcedly. -/
def process_enrich (ext : String → Enrichment) (now : Nat) (db : PipelineDB)
    (pid : String) : PipelineDB :=
  { restaurants := db.restaurants.map (fun r =>
      if r.place_id = pid then
        { r with enrichment := some (ext r.place_id),
                 pipeline := set_pipeline_status now .enriched r.pipeline }
      else r)
    today_enrichments := db.today_enrichments + 1 }

/-- Embedding of `enrich.run` (enrich.py:243-302).  Returns the updated database and the
number of external enrichment calls made.  Daily-cap check: if
`daily_limit - today_count <= 0` the run exits immediately; otherwise the
requested limit is clamped to the remainder (`limit is None or
limit > remaining` ⇒ use `remaining`) and every fetched row is processed. -/
def enricher_run (ext : String → Enrichment) (now : Nat) (limit : Option ℤ)
    (min_rating : ℚ) (min_reviews : ℤ) (dry_run force : Bool) (daily_limit : ℤ)
    (db : PipelineDB) : PipelineDB × Nat :=
  let remaining : ℤ := daily_limit - db.today_enrichments
  if remaining ≤ 0 then (db, 0)
  else
    let effective : Option ℤ :=
      match limit with
      | none => some remaining
      | some l => if remaining < l then some remaining else some l
    let rows := enrich_fetch_pending min_rating min_reviews effective force db.restaurants
    if dry_run then (db, 0)
    else (rows.foldl (fun acc r => process_enrich ext now acc r.place_id) db, rows.length)

/-- Embedding of `pipeline.stage_enrich` (pipeline.py:123-144): re-checks the daily cap,
computes `effective_limit = limit if (limit is not None and limit <= remaining)
else remaining`, and calls `enricher.run` with `force=False` and the module
thresholds. -/
def stage_enrich (ext : String → Enrichment) (now : Nat) (dry_run : Bool)
    (limit : Option ℤ) (daily_limit : ℤ) (db : PipelineDB) : PipelineDB × Nat :=
  let remaining : ℤ := daily_limit - db.today_enrichments
  if remaining ≤ 0 then (db, 0)
  else
    let effective : ℤ :=
      match limit with
      | some l => if l ≤ remaining then l else remaining
      | none => remaining
    enricher_run ext now (some effective) MIN_RATING MIN_REVIEWS dry_run false daily_limit db

/-- One successful iteration of the details loop body
(detail_scrape.py:309-326): `fetch_place_details` produced `place` (oracles
`extD`, `ext_closed`), `save_details` stores the row, and a closed place is
force-marked `inactive`. -/
def process_details (extD : String → Details) (ext_closed : String → Bool)
    (now : Nat) (db : List Restaurant) (pid : String) : List Restaurant :=
  db.map (fun r =>
    if r.place_id = pid then
      let r1 := { r with details := some (extD r.place_id) }
      if ext_closed r.place_id then
        { r1 with pipeline := set_pipeline_status_force now .inactive r1.pipeline }
      else r1
    else r)

/-- Embedding of `detail_scrape.run` (detail_scrape.py:283-353).  Returns the updated
restaurant rows and the number of external details calls made. -/
def details_run (extD : String → Details) (ext_closed : String → Bool)
    (now : Nat) (limit : Option ℤ) (min_rating : ℚ) (min_reviews : ℤ)
    (dry_run force : Bool) (db : List Restaurant) : List Restaurant × Nat :=
  let rows := details_fetch_pending min_rating min_reviews limit force db
  if dry_run then (db, 0)
  else (rows.foldl (fun acc r => process_details extD ext_closed now acc r.place_id) db,
        rows.length)

/-- An enrichment value with every column null (used as a trivial oracle). -/
def no_enrichment : Enrichment :=
  ⟨none, none, none, none, none, none, none, none, none, none, none, none, none, none⟩

/-- A quality-eligible `new` restaurant with no cached satellite rows. -/
def eligible_row (pid : String) : Restaurant :=
  { place_id := pid, rating := some 5, rating_count := some 200,
    price_level := none, place_type := none, has_cid := true, open_slots := [],
    is_active := true, pipeline := ⟨.new, none⟩, enrichment := none,
    details := none }

/-- Claim **C2 failing input.** With `--limit 0` the Python fragment
`{"LIMIT %(limit)s" if limit else ""}` treats `0` as falsy and emits *no*
`LIMIT` clause, so the enrich stage fetches every eligible row: with a daily
cap of 1, no enrichments done today, a requested limit of 0 and two eligible
restaurants, the stage performs 2 external enrichment calls — more than
`min(requested_limit, N - c) = 0` and more than the daily cap `N = 1`. -/
theorem stage_enrich_limit_zero_exceeds_cap :
    (stage_enrich (fun _ => no_enrichment) 0 false (some 0) 1
        ⟨[eligible_row "a", eligible_row "b"], 0⟩).2 = 2
    ∧ ¬ ((2 : ℕ) ≤ 1) ∧ ¬ ((2 : ℕ) ≤ 0) := by
  refine ⟨by decide, by decide, by decide⟩

/-- A quality-eligible restaurant in status `inactive`, already fetched for
details but never enriched. -/
def inactive_uncached_row : Restaurant :=
  { place_id := "closed", rating := some 5, rating_count := some 200,
    price_level := none, place_type := none, has_cid := true, open_slots := [],
    is_active := false, pipeline := ⟨.inactive, none⟩, enrichment := none,
    details := some ⟨none, none, none, none⟩ }

/-- A quality-eligible restaurant in status `new`, already enriched but with
no details row. -/
def new_enriched_row : Restaurant :=
  { place_id := "fresh", rating := some 5, rating_count := some 200,
    price_level := none, place_type := none, has_cid := true, open_slots := [],
    is_active := true, pipeline := ⟨.new, none⟩, enrichment := some no_enrichment,
    details := none }

/-- Claim **C5 failing input.**  Neither `fetch_pending` filters on
`pipeline_status`: the enrich selection picks up a quality-eligible `inactive`
restaurant that has no enrichment row (the stage docstring says it enriches
`'new'` candidates), and the details selection picks up a quality-eligible
`new` restaurant that has no details row (the stage docstring says it fetches
details for `'complete'` restaurants). -/
theorem fetch_pending_ignores_pipeline_status :
    inactive_uncached_row ∈ enrich_fetch_pending MIN_RATING MIN_REVIEWS none false
        [inactive_uncached_row, new_enriched_row]
    ∧ inactive_uncached_row.pipeline.status ≠ .new
    ∧ new_enriched_row ∈ details_fetch_pending MIN_RATING MIN_REVIEWS none false
        [inactive_uncached_row, new_enriched_row]
    ∧ new_enriched_row.pipeline.status ≠ .complete := by
  refine ⟨by decide, by decide, by decide, by decide⟩

/-- Claim **C6.** Cache idempotence of the per-entity paths.  For a single
quality-eligible restaurant under the daily cap: if it has no
`gemini_enrichments` row, the first (non-forced) enrich run performs exactly
one external call, and a second run returns the state of the first unchanged
with zero further calls (the `LEFT JOIN ... IS NULL` cache gate now excludes
the row); symmetrically for the details path and `serpapi_details`. -/
theorem cache_idempotence
    (ext : String → Enrichment) (extD : String → Details)
    (ext_closed : String → Bool) (now1 now2 : Nat) (r : Restaurant) (tc : Nat)
    (N : ℤ)
    (hrat : sql_is_true (sql_ge_q r.rating MIN_RATING) = true)
    (hcnt : sql_is_true (sql_ge_z r.rating_count MIN_REVIEWS) = true)
    (hcap : (tc : ℤ) < N) :
    (r.enrichment = none →
      (enricher_run ext now1 none MIN_RATING MIN_REVIEWS false false N ⟨[r], tc⟩).2 = 1
      ∧ enricher_run ext now2 none MIN_RATING MIN_REVIEWS false false N
          (enricher_run ext now1 none MIN_RATING MIN_REVIEWS false false N ⟨[r], tc⟩).1 =
        ((enricher_run ext now1 none MIN_RATING MIN_REVIEWS false false N ⟨[r], tc⟩).1, 0))
    ∧ (r.details = none → r.has_cid = true →
      (details_run extD ext_closed now1 none MIN_RATING MIN_REVIEWS false false [r]).2 = 1
      ∧ details_run extD ext_closed now2 none MIN_RATING MIN_REVIEWS false false
          (details_run extD ext_closed now1 none MIN_RATING MIN_REVIEWS false false [r]).1 =
        ((details_run extD ext_closed now1 none MIN_RATING MIN_REVIEWS false false [r]).1, 0)) := by
  have hrem : ¬ (N - (tc : ℤ) ≤ 0) := by omega
  constructor
  · intro he
    have hne : ¬ (N - (tc : ℤ) = 0) := by omega
    have htake : List.take (N - (tc : ℤ)).toNat [r] = [r] := by
      apply List.take_of_length_le
      simp only [List.length_singleton]
      omega
    have hfetch : enrich_fetch_pending MIN_RATING MIN_REVIEWS (some (N - (tc : ℤ)))
        false [r] = [r] := by
      simp only [enrich_fetch_pending, apply_limit, List.filter, hrat, hcnt, he,
        Option.isNone_none, Bool.or_true, Bool.and_true, Bool.and_self,
        List.insertionSort, List.orderedInsert, if_neg hne, htake]
    have hrun1 : enricher_run ext now1 none MIN_RATING MIN_REVIEWS false false N
        ⟨[r], tc⟩ = (process_enrich ext now1 ⟨[r], tc⟩ r.place_id, 1) := by
      simp [enricher_run, hrem, hfetch]
    refine ⟨by rw [hrun1], ?_⟩
    rw [hrun1]
    have hfetch2 : ∀ lim, enrich_fetch_pending MIN_RATING MIN_REVIEWS lim false
        (process_enrich ext now1 ⟨[r], tc⟩ r.place_id).restaurants = [] := by
      intro lim
      cases lim with
      | none => simp [process_enrich, enrich_fetch_pending, apply_limit]
      | some l =>
        by_cases hl : l = 0 <;>
          simp [process_enrich, enrich_fetch_pending, apply_limit, hl]
    by_cases hrem2 : N - ((process_enrich ext now1 ⟨[r], tc⟩ r.place_id).today_enrichments : ℤ) ≤ 0
    · simp [enricher_run, hrem2]
    · simp [enricher_run, hrem2, hfetch2]
  · intro hd hcid
    have hfetch : details_fetch_pending MIN_RATING MIN_REVIEWS none false [r] = [r] := by
      simp only [details_fetch_pending, apply_limit, List.filter, hrat, hcnt, hd,
        hcid, Option.isNone_none, Bool.or_true, Bool.and_true, Bool.and_self,
        List.insertionSort, List.orderedInsert]
    have hrun1 : details_run extD ext_closed now1 none MIN_RATING MIN_REVIEWS false
        false [r] =
        (process_details extD ext_closed now1 [r] r.place_id, 1) := by
      simp [details_run, hfetch]
    refine ⟨by rw [hrun1], ?_⟩
    rw [hrun1]
    have hfetch2 : details_fetch_pending MIN_RATING MIN_REVIEWS none false
        (process_details extD ext_closed now1 [r] r.place_id) = [] := by
      by_cases hc : ext_closed r.place_id <;>
        simp [process_details, details_fetch_pending, apply_limit, hc]
    simp [details_run, hfetch2]

/-- Witness for C6 at a concrete eligible restaurant with trivial oracles. -/
theorem cache_idempotence_witness :
    (enricher_run (fun _ => no_enrichment) 0 none MIN_RATING MIN_REVIEWS false false 500
        ⟨[eligible_row "a"], 0⟩).2 = 1
    ∧ enricher_run (fun _ => no_enrichment) 1 none MIN_RATING MIN_REVIEWS false false 500
        (enricher_run (fun _ => no_enrichment) 0 none MIN_RATING MIN_REVIEWS false false 500
          ⟨[eligible_row "a"], 0⟩).1 =
      ((enricher_run (fun _ => no_enrichment) 0 none MIN_RATING MIN_REVIEWS false false 500
          ⟨[eligible_row "a"], 0⟩).1, 0)
    ∧ (details_run (fun _ => ⟨none, none, none, none⟩) (fun _ => false) 0 none MIN_RATING
        MIN_REVIEWS false false [eligible_row "a"]).2 = 1
    ∧ details_run (fun _ => ⟨none, none, none, none⟩) (fun _ => false) 1 none MIN_RATING
        MIN_REVIEWS false false
        (details_run (fun _ => ⟨none, none, none, none⟩) (fun _ => false) 0 none MIN_RATING
          MIN_REVIEWS false false [eligible_row "a"]).1 =
      ((details_run (fun _ => ⟨none, none, none, none⟩) (fun _ => false) 0 none MIN_RATING
          MIN_REVIEWS false false [eligible_row "a"]).1, 0) := by
  have h := cache_idempotence (fun _ => no_enrichment) (fun _ => ⟨none, none, none, none⟩)
    (fun _ => false) 0 1 (eligible_row "a") 0 500 (by decide) (by decide) (by decide)
  exact ⟨(h.1 rfl).1, (h.1 rfl).2, (h.2 rfl rfl).1, (h.2 rfl rfl).2⟩

/-! ## Stage 1: search (`scrape.py`) -/

/-- A place object of a Serper Maps response: the fields read by
`db.upsert_restaurant` (db.py:57-113) and `scrape.run`. -/
structure Place where
  placeId : Option String
  cid : Option String
  rating : Option ℚ
  ratingCount : Option ℤ
  priceLevel : Option String
  ptype : Option String
deriving DecidableEq, Repr

/-- Python string truthiness: an absent or empty string is falsy. -/
def truthy_str : Option String → Option String
  | some s => if s = "" then none else some s
  | none => none

/-- Embedding of `place.get("placeId") or place.get("cid")` (db.py:62). -/
def Place.ident (p : Place) : Option String :=
  match truthy_str p.placeId with
  | some s => some s
  | none => truthy_str p.cid

/-- Embedding of `db.upsert_restaurant` (db.py:57-113): skip a place without identifier;
otherwise insert or update by `place_id`, returning the identifier on
success.  The column defaults of the `INSERT` (the DDL is not part of the
scraper sources) are abstracted by `default_status`; satellite rows are
untouched.  (The `search_results` rank bookkeeping of `link_search_result`
is not modelled: nothing verified reads it.) -/
def upsert_restaurant (default_status : Status) (db : List Restaurant) (p : Place) :
    List Restaurant × Option String :=
  match p.ident with
  | none => (db, none)
  | some pid =>
    if db.any (fun r => r.place_id = pid) then
      (db.map (fun r =>
        if r.place_id = pid then
          { r with rating := p.rating, rating_count := p.ratingCount,
                   price_level := p.priceLevel, place_type := p.ptype,
                   has_cid := p.cid.isSome }
        else r), some pid)
    else
      (db ++ [{ place_id := pid, rating := p.rating, rating_count := p.ratingCount,
                price_level := p.priceLevel, place_type := p.ptype,
                has_cid := p.cid.isSome, open_slots := [], is_active := true,
                pipeline := ⟨default_status, none⟩, enrichment := none,
                details := none }], some pid)

/-- The inner place loop of `scrape.run` (scrape.py:103-114): upsert each
place, advance its status to `new` non-forcedly, and count the saves
(`new_count`, which becomes the recorded `result_count`). -/
def save_places (default_status : Status) (now : Nat) (db : List Restaurant)
    (places : List Place) : List Restaurant × ℤ :=
  places.foldl
    (fun acc p =>
      match upsert_restaurant default_status acc.1 p with
      | (db', none) => (db', acc.2)
      | (db', some pid) =>
          (db'.map (fun r =>
            if r.place_id = pid then
              { r with pipeline := set_pipeline_status now .new r.pipeline }
            else r), acc.2 + 1))
    (db, 0)

/-- The persistent state touched by the search stage: the `serper_cache`
(keyed by `(query, location)` with `search_type = 'maps'` fixed), the
restaurant rows and the `pipeline_runs` rows
(`last_run_at, result_count, status`, `none` = never inserted/run). -/
structure ScrapeState where
  cache : String × String → Option (List Place)
  restaurants : List Restaurant
  runs : String × String → Option (Nat × ℤ × String)

/-- One iteration of the query loop of `scrape.run` (scrape.py:74-120).
Cached and non-forced: reuse the cached response, process its places, then
`mark_pipeline_run(..., new_count, 'ok')`.  Otherwise (dry-run aside) call
the search capability: on provider error `mark_pipeline_run(..., 0, 'error')`
and continue; on success save the cache, process places and mark `'ok'`. -/
def process_combo (default_status : Status) (force dry_run : Bool) (now : Nat)
    (search : String × String → Except Unit (List Place))
    (st : ScrapeState) (c : String × String) : ScrapeState :=
  match st.cache c, force with
  | some data, false =>
      let res := save_places default_status now st.restaurants data
      { st with restaurants := res.1,
                runs := fun x => if x = c then some (now, res.2, "ok") else st.runs x }
  | _, _ =>
      if dry_run then st
      else
        match search c with
        | .error _ =>
            { st with runs := fun x => if x = c then some (now, 0, "error") else st.runs x }
        | .ok data =>
            let res := save_places default_status now st.restaurants data
            { cache := fun x => if x = c then some data else st.cache x,
              restaurants := res.1,
              runs := fun x => if x = c then some (now, res.2, "ok") else st.runs x }

/-- Embedding of `scrape.run` over its selected query list (scrape.py:74-120).  The list
of `(term, location)` combinations — `get_due_pipeline_runs` for a normal
run, the full config cross-product under `--force` — is taken as an input. -/
def scrape_run (default_status : Status) (force dry_run : Bool) (now : Nat)
    (search : String × String → Except Unit (List Place))
    (st : ScrapeState) (combos : List (String × String)) : ScrapeState :=
  combos.foldl (process_combo default_status force dry_run now search) st

lemma process_combo_other (default_status : Status) (force dry_run : Bool)
    (now : Nat) (search : String × String → Except Unit (List Place))
    (st : ScrapeState) {d c : String × String} (hdc : d ≠ c) :
    (process_combo default_status force dry_run now search st d).runs c = st.runs c
    ∧ (process_combo default_status force dry_run now search st d).cache c = st.cache c := by
  have hne : ¬ (c = d) := fun h => hdc h.symm
  unfold process_combo
  rcases hcache : st.cache d with _ | data <;> rcases force with _ | _ <;>
    rcases dry_run with _ | _ <;> simp [hne]
  all_goals rcases search d with _ | data2 <;> simp [hne]

lemma scrape_run_not_mem (default_status : Status) (force dry_run : Bool)
    (now : Nat) (search : String × String → Except Unit (List Place))
    {combos : List (String × String)} {c : String × String} (hc : c ∉ combos) :
    ∀ st : ScrapeState,
      (scrape_run default_status force dry_run now search st combos).runs c = st.runs c
      ∧ (scrape_run default_status force dry_run now search st combos).cache c = st.cache c := by
  induction combos with
  | nil => intro st; exact ⟨rfl, rfl⟩
  | cons d tl ih =>
    intro st
    have hdc : d ≠ c := fun h => hc (h ▸ List.mem_cons_self d tl)
    have htl : c ∉ tl := fun h => hc (List.mem_cons_of_mem d h)
    have hstep := process_combo_other default_status force dry_run now search st hdc
    have hrest := ih htl (process_combo default_status force dry_run now search st d)
    refine ⟨?_, ?_⟩
    · calc (scrape_run default_status force dry_run now search
            (process_combo default_status force dry_run now search st d) tl).runs c
          = (process_combo default_status force dry_run now search st d).runs c :=
            hrest.1
        _ = st.runs c := hstep.1
    · calc (scrape_run default_status force dry_run now search
            (process_combo default_status force dry_run now search st d) tl).cache c
          = (process_combo default_status force dry_run now search st d).cache c :=
            hrest.2
        _ = st.cache c := hstep.2

lemma process_combo_self_isSome (default_status : Status) (force : Bool)
    (now : Nat) (search : String × String → Except Unit (List Place))
    (st : ScrapeState) (c : String × String) :
    ((process_combo default_status force false now search st c).runs c).isSome = true := by
  unfold process_combo
  rcases hcache : st.cache c with _ | data <;> rcases force with _ | _ <;> simp
  all_goals rcases search c with _ | data2 <;> simp

lemma process_combo_self_error (default_status : Status) (force : Bool)
    (now : Nat) (search : String × String → Except Unit (List Place))
    (st : ScrapeState) (c : String × String)
    (hpath : st.cache c = none ∨ force = true)
    (herr : search c = Except.error ()) :
    (process_combo default_status force false now search st c).runs c =
      some (now, 0, "error") := by
  unfold process_combo
  rcases hcache : st.cache c with _ | data
  · rcases force with _ | _ <;> simp [herr]
  · rcases hpath with hpath | hpath
    · exact absurd (hcache ▸ hpath) (by simp)
    · simp [hpath, herr]

/-- Claim **C9.** Every `(term, location)` query processed by a non-dry-run search
stage run has its `pipeline_runs` row updated afterwards (its mark is set),
whether the attempt succeeded or failed; and whenever the query goes out to
the provider (no cached response, or `force`) and the provider errors, the
mark records `result_count = 0` with status `"error"` — while the remaining
queries are still processed (the conclusion holds for every member of the
list). -/
theorem scrape_marks_every_query (default_status : Status) (force : Bool)
    (now : Nat) (search : String × String → Except Unit (List Place))
    (st : ScrapeState) (combos : List (String × String))
    (hnd : combos.Nodup) (c : String × String) (hc : c ∈ combos) :
    ((scrape_run default_status force false now search st combos).runs c).isSome = true
    ∧ (st.cache c = none ∨ force = true → search c = Except.error () →
        (scrape_run default_status force false now search st combos).runs c =
          some (now, 0, "error")) := by
  obtain ⟨l1, l2, rfl⟩ := List.append_of_mem hc
  rw [List.nodup_append] at hnd
  have h1 : c ∉ l1 := fun h => (hnd.2.2 h (List.mem_cons_self c l2)).elim
  have h2 : c ∉ l2 := (List.nodup_cons.1 hnd.2.1).1
  have hsplit : scrape_run default_status force false now search st (l1 ++ c :: l2)
      = scrape_run default_status force false now search
          (process_combo default_status force false now search
            (scrape_run default_status force false now search st l1) c) l2 := by
    unfold scrape_run
    rw [List.foldl_append, List.foldl_cons]
  have hpre := scrape_run_not_mem default_status force false now search h1 st
  have hpost := scrape_run_not_mem default_status force false now search h2
    (process_combo default_status force false now search
      (scrape_run default_status force false now search st l1) c)
  rw [hsplit, hpost.1]
  constructor
  · exact process_combo_self_isSome default_status force now search _ c
  · intro hpath herr
    refine process_combo_self_error default_status force now search _ c ?_ herr
    rcases hpath with hpath | hpath
    · exact Or.inl (hpre.2.trans hpath)
    · exact Or.inr hpath

/-- The state and search oracle of the C9 witness: empty cache and runs
table, a provider that errors on `("a", "x")` and succeeds elsewhere. -/
def c9_state : ScrapeState :=
  ⟨fun _ => none, [], fun _ => none⟩

/-- Search oracle for the C9 witness. -/
def c9_search : String × String → Except Unit (List Place) :=
  fun c => if c = ("a", "x") then Except.error () else Except.ok []

/-- Witness for C9: on a two-query run whose first query hits a provider
error, the first mark is `(now, 0, "error")` and the second query is still
processed and marked. -/
theorem scrape_marks_every_query_witness :
    (scrape_run .new false false 5 c9_search c9_state
        [("a", "x"), ("b", "y")]).runs ("a", "x") = some (5, 0, "error")
    ∧ ((scrape_run .new false false 5 c9_search c9_state
        [("a", "x"), ("b", "y")]).runs ("b", "y")).isSome = true := by
  have h1 := scrape_marks_every_query .new false 5 c9_search c9_state
    [("a", "x"), ("b", "y")] (by decide) ("a", "x") (by decide)
  have h2 := scrape_marks_every_query .new false 5 c9_search c9_state
    [("a", "x"), ("b", "y")] (by decide) ("b", "y") (by decide)
  exact ⟨h1.2 (Or.inl rfl) rfl, h2.1⟩

/-! ## Similarity recommender (`frontend/app.py:165-313`, `api_similar`)

The endpoint runs one SQL query: a `target` CTE coalescing the 11 profile
scores, tag arrays, raw place type and price level of the requested
`place_id`, cross-joined against every other enriched `top_restaurants` row;
the composite `similarity` column is filtered at `>= 0.50`, ordered
descending and limited.  SQL floats are modelled as `ℝ`; a `NULL` similarity
(zero-norm score vector makes the `NULLIF` denominator `NULL` and `NULL`
propagates through the whole sum) is `none`.  The query never touches the
`restaurant_embeddings` table. -/

/-- Embedding of `COALESCE(e.x_score, 0)` for the 11 profile columns, in SQL order
(frontend/app.py:184-194, 217-227); an absent enrichment row (target side
`LEFT JOIN`) coalesces every component to 0. -/
def score_vec (e : Option Enrichment) : List ℤ :=
  [(e.bind Enrichment.family_score).getD 0,
   (e.bind Enrichment.date_score).getD 0,
   (e.bind Enrichment.friends_score).getD 0,
   (e.bind Enrichment.solo_score).getD 0,
   (e.bind Enrichment.relaxed_score).getD 0,
   (e.bind Enrichment.party_score).getD 0,
   (e.bind Enrichment.special_score).getD 0,
   (e.bind Enrichment.foodie_score).getD 0,
   (e.bind Enrichment.lingering_score).getD 0,
   (e.bind Enrichment.unique_score).getD 0,
   (e.bind Enrichment.dresscode_score).getD 0]

/-- Integer dot product of two score vectors. -/
def dotZ (a b : List ℤ) : ℤ :=
  (List.zipWith (· * ·) a b).sum

/-- The sum of squares appearing under each `SQRT` in the SQL. -/
def norm_sq (a : List ℤ) : ℤ :=
  dotZ a a

/-- Embedding of `COALESCE(sd.atmosphere,'{}') || COALESCE(sd.offerings,'{}') ||
COALESCE(sd.crowd,'{}') || COALESCE(sd.highlights,'{}')`
(frontend/app.py:195-196, 248-258); a missing `serpapi_details` row gives all
`NULL` columns. -/
def tag_list (d : Option Details) : List String :=
  match d with
  | none => []
  | some d =>
      d.atmosphere.getD [] ++ d.offerings.getD [] ++ d.crowd.getD []
        ++ d.highlights.getD []

/-- SQL `NULLIF(x, y)`. -/
noncomputable def nullif_r (x y : ℝ) : Option ℝ :=
  if x = y then none else some x

/-- SQL `=` on two nullable strings: true only when both are present and
equal (`CASE WHEN a = b THEN ...` does not fire on `NULL`s). -/
def sql_eq_str : Option String → Option String → Bool
  | some x, some y => x == y
  | _, _ => false

/-- Embedding of `LENGTH(COALESCE(price_level, '€'))` (frontend/app.py:269-272). -/
def price_len (x : Option String) : ℤ :=
  ((x.getD "€").length : ℤ)

/-- The `similarity` column of the recommender query
(frontend/app.py:215-275), for target row `t` and candidate row `c`:
`(dot)::float / NULLIF(SQRT(Σc²)·SQRT(Σt²), 0) * 0.60
 + COALESCE(|∩| / NULLIF(|∪|, 0), 0) * 0.25
 + CASE WHEN same raw type THEN 0.10 ELSE 0 END
 + CASE WHEN same price level THEN 0.05
        WHEN price-symbol counts differ by 1 THEN 0.025 ELSE 0 END`.
`INTERSECT`/`UNION` on unnested arrays have set semantics, hence the
`Finset`s.  The cosine term has no `COALESCE`, so a `NULL` denominator makes
the whole column `NULL`. -/
noncomputable def similarity (t c : Restaurant) : Option ℝ :=
  let a := score_vec c.enrichment
  let b := score_vec t.enrichment
  let den : ℝ := Real.sqrt ((norm_sq a : ℤ) : ℝ) * Real.sqrt ((norm_sq b : ℤ) : ℝ)
  let cos_term : Option ℝ := (nullif_r den 0).map (fun d => ((dotZ a b : ℤ) : ℝ) / d)
  let ta := (tag_list c.details).toFinset
  let tb := (tag_list t.details).toFinset
  let jac : ℝ :=
    ((nullif_r (((ta ∪ tb).card : ℕ) : ℝ) 0).map
      (fun u => (((ta ∩ tb).card : ℕ) : ℝ) / u)).getD 0
  let type_bonus : ℝ := if sql_eq_str c.place_type t.place_type then 0.10 else 0
  let price_bonus : ℝ :=
    if sql_eq_str c.price_level t.price_level then 0.05
    else if |price_len c.price_level - price_len t.price_level| = 1 then 0.025
    else 0
  cos_term.map (fun cv => cv * 0.60 + jac * 0.25 + type_bonus + price_bonus)

/-- The `ORDER BY similarity DESC` order on result rows `(place_id, score)`. -/
def sim_ge (a b : String × ℝ) : Prop :=
  b.2 ≤ a.2

noncomputable instance : DecidableRel sim_ge :=
  fun a b => inferInstanceAs (Decidable (b.2 ≤ a.2))

instance : IsTotal (String × ℝ) sim_ge :=
  ⟨fun a b => le_total b.2 a.2⟩

instance : IsTrans (String × ℝ) sim_ge :=
  ⟨fun _ _ _ h1 h2 => le_trans h2 h1⟩

/-- Embedding of `api_similar` (frontend/app.py:165-313): `n = min(requested, 20)`; the
`target` CTE must find the place in `top_restaurants` (otherwise the cross
join is empty); candidates are the other rows having a `gemini_enrichments`
row (`JOIN`), scored by `similarity`; rows with `similarity >= 0.50` (a
`NULL` similarity fails the comparison) are ordered descending and limited
to `n`. -/
noncomputable def api_similar (pool : List Restaurant) (pid : String)
    (n_req : ℕ) : List (String × ℝ) :=
  let n := min n_req 20
  match pool.find? (fun r => r.place_id == pid) with
  | none => []
  | some t =>
    let cands := pool.filter (fun r => r.enrichment.isSome && r.place_id != pid)
    let scored := cands.filterMap
      (fun c => (similarity t c).map (fun s => (c.place_id, s)))
    let kept := scored.filter (fun p => decide ((1 : ℝ) / 2 ≤ p.2))
    (kept.insertionSort sim_ge).take n

/-- Claim **C3.** `api_similar` never returns the target itself, every returned
score is at least `0.50`, at most `min(n, 20)` rows are returned, and the
rows are ordered descending by score. -/
theorem api_similar_bounds (pool : List Restaurant) (pid : String) (n_req : ℕ) :
    (∀ p ∈ api_similar pool pid n_req, p.1 ≠ pid)
    ∧ (∀ p ∈ api_similar pool pid n_req, (1 : ℝ) / 2 ≤ p.2)
    ∧ (api_similar pool pid n_req).length ≤ min n_req 20
    ∧ List.Sorted sim_ge (api_similar pool pid n_req) := by
  unfold api_similar
  cases hfind : pool.find? (fun r => r.place_id == pid) with
  | none => simp
  | some t =>
    simp only
    refine ⟨fun p hp => ?_, fun p hp => ?_, ?_, ?_⟩
    · have hp1 := (List.take_sublist _ _).subset hp
      have hp2 := (List.perm_insertionSort sim_ge _).subset hp1
      have hp3 := (List.mem_filter.1 hp2).1
      obtain ⟨c, hc, heq⟩ := List.mem_filterMap.1 hp3
      obtain ⟨s, _, hps⟩ := Option.map_eq_some'.1 heq
      have hcpred := (List.mem_filter.1 hc).2
      simp only [Bool.and_eq_true] at hcpred
      have hne : (c.place_id != pid) = true := hcpred.2
      rw [← hps]
      exact bne_iff_ne.1 hne
    · have hp1 := (List.take_sublist _ _).subset hp
      have hp2 := (List.perm_insertionSort sim_ge _).subset hp1
      exact of_decide_eq_true (List.mem_filter.1 hp2).2
    · rw [List.length_take]
      exact min_le_left _ _
    · exact List.Pairwise.sublist (List.take_sublist _ _)
        (List.sorted_insertionSort sim_ge _)

/-! ### The composite formula (C4) -/

/-- Cosine similarity of two integer score vectors with the zero-vector
convention: 0 when either vector has zero norm. -/
noncomputable def cosine_sim (a b : List ℤ) : ℝ :=
  if norm_sq a = 0 ∨ norm_sq b = 0 then 0
  else ((dotZ a b : ℤ) : ℝ) /
    (Real.sqrt ((norm_sq a : ℤ) : ℝ) * Real.sqrt ((norm_sq b : ℤ) : ℝ))

/-- Jaccard similarity `|A ∩ B| / |A ∪ B|` of two tag sets, 0 when both are
empty. -/
noncomputable def jaccard_sim (A B : Finset String) : ℝ :=
  if A ∪ B = ∅ then 0 else ((A ∩ B).card : ℝ) / ((A ∪ B).card : ℝ)

lemma norm_sq_nonneg (a : List ℤ) : 0 ≤ norm_sq a := by
  unfold norm_sq dotZ
  rw [List.zipWith_same]
  apply List.sum_nonneg
  intro x hx
  obtain ⟨y, _, rfl⟩ := List.mem_map.1 hx
  exact mul_self_nonneg y

lemma den_eq_zero_iff (a b : List ℤ) :
    Real.sqrt ((norm_sq a : ℤ) : ℝ) * Real.sqrt ((norm_sq b : ℤ) : ℝ) = 0 ↔
      norm_sq a = 0 ∨ norm_sq b = 0 := by
  have ha := norm_sq_nonneg a
  have hb := norm_sq_nonneg b
  rw [mul_eq_zero, Real.sqrt_eq_zero', Real.sqrt_eq_zero']
  constructor
  · rintro (h | h)
    · exact Or.inl (le_antisymm (by exact_mod_cast h) ha)
    · exact Or.inr (le_antisymm (by exact_mod_cast h) hb)
  · rintro (h | h)
    · exact Or.inl (by exact_mod_cast h.le)
    · exact Or.inr (by exact_mod_cast h.le)

lemma jaccard_getD_eq (A B : Finset String) :
    ((nullif_r (((A ∪ B).card : ℕ) : ℝ) 0).map
      (fun u => (((A ∩ B).card : ℕ) : ℝ) / u)).getD 0 = jaccard_sim A B := by
  unfold nullif_r jaccard_sim
  by_cases h : A ∪ B = ∅
  · simp [h]
  · have hc : (((A ∪ B).card : ℕ) : ℝ) ≠ 0 := by
      simp only [ne_eq, Nat.cast_eq_zero, Finset.card_eq_zero]
      exact h
    simp [hc, h]

lemma similarity_decomp (t c : Restaurant) :
    similarity t c =
      if norm_sq (score_vec c.enrichment) = 0 ∨ norm_sq (score_vec t.enrichment) = 0
      then none
      else some
        (0.60 * cosine_sim (score_vec c.enrichment) (score_vec t.enrichment)
          + 0.25 * jaccard_sim (tag_list c.details).toFinset (tag_list t.details).toFinset
          + (if sql_eq_str c.place_type t.place_type then 0.10 else 0)
          + (if sql_eq_str c.price_level t.price_level then 0.05
             else if |price_len c.price_level - price_len t.price_level| = 1 then 0.025
             else 0)) := by
  unfold similarity
  by_cases hz : norm_sq (score_vec c.enrichment) = 0 ∨ norm_sq (score_vec t.enrichment) = 0
  · have hden := (den_eq_zero_iff (score_vec c.enrichment) (score_vec t.enrichment)).2 hz
    rw [if_pos hz]
    simp [nullif_r, hden]
  · have hden : Real.sqrt ((norm_sq (score_vec c.enrichment) : ℤ) : ℝ) *
        Real.sqrt ((norm_sq (score_vec t.enrichment) : ℤ) : ℝ) ≠ 0 :=
      fun h => hz ((den_eq_zero_iff _ _).1 h)
    rw [if_neg hz]
    simp only [jaccard_getD_eq]
    simp only [nullif_r, if_neg hden, Option.map_some', cosine_sim, if_neg hz]
    congr 1
    ring

/-- Claim **C4 (amended).** The recommender's per-pair score never consults
embeddings; for every target/candidate pair it is `NULL` (pair excluded) when
either 11-dimensional profile-score vector is all zero, and otherwise equals
`0.60 · cos(score vectors) + 0.25 · jaccard(concatenated detail-tag sets)
+ 0.10 type bonus (raw place types present and equal) + price bonus (0.05 for
an identical price level, 0.025 when the price-symbol counts — a missing
level counting as one symbol — differ by exactly one, 0 otherwise)`. -/
theorem similarity_fallback_formula (t c : Restaurant) :
    similarity t c =
      if norm_sq (score_vec c.enrichment) = 0 ∨ norm_sq (score_vec t.enrichment) = 0
      then none
      else some
        (0.60 * cosine_sim (score_vec c.enrichment) (score_vec t.enrichment)
          + 0.25 * jaccard_sim (tag_list c.details).toFinset (tag_list t.details).toFinset
          + (if sql_eq_str c.place_type t.place_type then 0.10 else 0)
          + (if sql_eq_str c.price_level t.price_level then 0.05
             else if |price_len c.price_level - price_len t.price_level| = 1 then 0.025
             else 0)) :=
  similarity_decomp t c

/-- Modelled from the spec: the claimed fallback-mode composite for a pair
where at least one side lacks an embedding —
`0.60 · cos(scores) + 0.15 · jaccard(open_slots) + type bonus (0.10) +
price bonus (0.05 identical tier / 0.025 one-tier difference / 0)`; the
"same coarse category" condition is read as equality of the stored place
types (which are identical in the counterexample under any reading). -/
noncomputable def spec_fallback_similarity (t c : Restaurant) : ℝ :=
  0.60 * cosine_sim (score_vec c.enrichment) (score_vec t.enrichment)
    + 0.15 * jaccard_sim c.open_slots.toFinset t.open_slots.toFinset
    + (if sql_eq_str c.place_type t.place_type then 0.10 else 0)
    + (if sql_eq_str c.price_level t.price_level then 0.05
       else if |price_len c.price_level - price_len t.price_level| = 1 then 0.025
       else 0)

/-- An enrichment whose 11 profile scores are all 1. -/
def ones_enrichment : Enrichment :=
  ⟨some 1, some 1, some 1, some 1, some 1, some 1, some 1, some 1, some 1,
   some 1, some 1, none, none, none⟩

/-- A concrete target row: all-ones profile vector, one detail tag, one open
slot, a place type and a price level (and no embedding — the similarity query
reads none anyway). -/
def ex_target : Restaurant :=
  { place_id := "t", rating := none, rating_count := none,
    price_level := some "a", place_type := some "Restaurant", has_cid := false,
    open_slots := ["Mo12"], is_active := true, pipeline := ⟨.complete, none⟩,
    enrichment := some ones_enrichment,
    details := some ⟨some ["x"], none, none, none⟩ }

/-- A candidate identical to `ex_target` except for its `place_id`. -/
def ex_cand : Restaurant :=
  { ex_target with place_id := "c" }

lemma cosine_sim_ones :
    cosine_sim (score_vec (some ones_enrichment)) (score_vec (some ones_enrichment)) = 1 := by
  have h11 : norm_sq (score_vec (some ones_enrichment)) = 11 := by decide
  have hd : dotZ (score_vec (some ones_enrichment)) (score_vec (some ones_enrichment)) = 11 := by
    decide
  unfold cosine_sim
  rw [if_neg (by simp [h11]), hd, h11, Real.mul_self_sqrt (by norm_num)]
  norm_num

lemma jaccard_sim_single : jaccard_sim {"x"} {"x"} = 1 := by
  unfold jaccard_sim
  rw [if_neg (by decide)]
  norm_num [show ((({"x"} : Finset String) ∩ {"x"}).card) = 1 from by decide,
    show ((({"x"} : Finset String) ∪ {"x"}).card) = 1 from by decide]

lemma similarity_ex : similarity ex_target ex_cand = some 1 := by
  rw [similarity_decomp]
  have h11 : norm_sq (score_vec ex_cand.enrichment) = 11 := by decide
  have h11t : norm_sq (score_vec ex_target.enrichment) = 11 := by decide
  rw [if_neg (by simp [h11, h11t])]
  have hcos : cosine_sim (score_vec ex_cand.enrichment) (score_vec ex_target.enrichment) = 1 := by
    have : ex_cand.enrichment = some ones_enrichment := rfl
    have ht : ex_target.enrichment = some ones_enrichment := rfl
    rw [this, ht, cosine_sim_ones]
  have htag : (tag_list ex_cand.details).toFinset = ({"x"} : Finset String) := by decide
  have htagt : (tag_list ex_target.details).toFinset = ({"x"} : Finset String) := by decide
  rw [hcos, htag, htagt, jaccard_sim_single]
  norm_num [sql_eq_str, ex_target, ex_cand]

/-- Claim **C4 counterexample.** On a concrete embedding-less target/candidate pair
(identical all-ones profile vectors, identical single detail tag and open
slot, same place type and price level) the code's score is `1.0` — the
jaccard term carries weight `0.25` over the SerpAPI detail-tag sets — while
the claimed fallback formula (`0.15 · jaccard(open_slots)`) yields `0.90`. -/
theorem similarity_fallback_weights_counterexample :
    similarity ex_target ex_cand = some 1
    ∧ spec_fallback_similarity ex_target ex_cand = 0.90
    ∧ (0.90 : ℝ) ≠ 1 := by
  refine ⟨similarity_ex, ?_, by norm_num⟩
  unfold spec_fallback_similarity
  have hcos : cosine_sim (score_vec ex_cand.enrichment) (score_vec ex_target.enrichment) = 1 := by
    have hc : ex_cand.enrichment = some ones_enrichment := rfl
    have ht : ex_target.enrichment = some ones_enrichment := rfl
    rw [hc, ht, cosine_sim_ones]
  have hslots : (ex_cand.open_slots).toFinset = ({"Mo12"} : Finset String) := by decide
  have hslotst : (ex_target.open_slots).toFinset = ({"Mo12"} : Finset String) := by decide
  have hjac : jaccard_sim ({"Mo12"} : Finset String) {"Mo12"} = 1 := by
    unfold jaccard_sim
    rw [if_neg (by decide)]
    norm_num [show ((({"Mo12"} : Finset String) ∩ {"Mo12"}).card) = 1 from by decide,
      show ((({"Mo12"} : Finset String) ∪ {"Mo12"}).card) = 1 from by decide]
  rw [hcos, hslots, hslotst, hjac]
  norm_num [sql_eq_str, ex_target, ex_cand]

lemma api_similar_ex : api_similar [ex_target, ex_cand] "t" 6 = [("c", 1)] := by
  have hfind : List.find? (fun r => r.place_id == "t") [ex_target, ex_cand]
      = some ex_target := rfl
  have hcands : List.filter (fun r => r.enrichment.isSome && r.place_id != "t")
      [ex_target, ex_cand] = [ex_cand] := rfl
  have hhalf : decide ((1 : ℝ) / 2 ≤ 1) = true :=
    decide_eq_true (by norm_num)
  unfold api_similar
  rw [hfind]
  simp only [hcands, List.filterMap_cons, List.filterMap_nil, similarity_ex,
    Option.map_some', List.filter_singleton]
  rw [hhalf]
  simp only [cond_true, List.insertionSort, List.orderedInsert]
  rw [show ex_cand.place_id = "c" from rfl]
  simp

/-- Witness for C3 on a concrete pool: the returned row is not the target,
its score is above the cutoff, and the result respects the limit and the
descending order. -/
theorem api_similar_bounds_witness :
    ("c", (1 : ℝ)).1 ≠ "t"
    ∧ (1 : ℝ) / 2 ≤ ("c", (1 : ℝ)).2
    ∧ (api_similar [ex_target, ex_cand] "t" 6).length ≤ min 6 20
    ∧ List.Sorted sim_ge (api_similar [ex_target, ex_cand] "t" 6) := by
  have hb := api_similar_bounds [ex_target, ex_cand] "t" 6
  have hm : ("c", (1 : ℝ)) ∈ api_similar [ex_target, ex_cand] "t" 6 := by
    rw [api_similar_ex]
    exact List.mem_singleton.2 rfl
  exact ⟨hb.1 _ hm, hb.2.1 _ hm, hb.2.2.1, hb.2.2.2⟩

end EatEat
